import Mathlib

/-!
Verification of the model acquisition and lifecycle manager of the cv-parser
repository against its design specification.

The development shallowly embeds the relevant code:

* the multi-layer progress aggregation of `pullOllamaModel`
  (frontend app component): a `Map<string, {completed, total}>` keyed by layer
  digest, summed into a single percent;
* the streaming pull loop `OllamaService.pullModel` (retry, backoff, cleanup,
  newline-delimited record decoding);
* the engine lifecycle method `LocalExtractionService.initialize`
  (reload-first, recreate-fallback with a 500ms settle delay).

Machine numbers of the source (byte counts) are embedded as `Nat`; the
JavaScript `Math.round` on the non-negative ratios involved is embedded as
exact rational rounding (floor of x + 1/2).
-/

deriving instance DecidableEq for Except

namespace CvParser

/-! ## ProgressAggregator: per-layer byte progress (pullOllamaModel) -/

/-- One layer's progress record, the value type of the JS
`Map<string, { completed: number, total: number }>`. -/
structure LayerProgress where
  completed : Nat
  total : Nat
deriving Repr, DecidableEq

/-- The layers map of one pull attempt, embedded as an association list keyed
by digest.  JS `Map.set` replaces the value of an existing key and otherwise
appends; insertion order is preserved (it only matters for iteration order,
which the summation below does not depend on). -/
abbrev Layers := List (String × LayerProgress)

/-- JS `Map.set`: replace the value stored at an existing key, append
otherwise. -/
def layersSet : Layers → String → LayerProgress → Layers
  | [], d, v => [(d, v)]
  | (k, w) :: rest, d, v =>
      if k = d then (d, v) :: rest else (k, w) :: layersSet rest d v

/-- JS `Map.get`: the value stored at a key, if any. -/
def lookupLayer : Layers → String → Option LayerProgress
  | [], _ => none
  | (k, w) :: rest, d => if k = d then some w else lookupLayer rest d

/-- globalCompleted: sum of `completed` over all known layers
(`layers.forEach( layer => globalCompleted += layer.completed )`). -/
def globalCompleted (L : Layers) : Nat :=
  (L.map (fun p => p.2.completed)).sum

/-- globalTotal: sum of `total` over all known layers. -/
def globalTotal (L : Layers) : Nat :=
  (L.map (fun p => p.2.total)).sum

/-- One decoded progress event as received by the aggregation callback of
`pullOllamaModel`: `( status, completed, total, digest )`.  The digest is
`none` when the wire record carried no `digest` field. -/
structure PullEvent where
  status : String
  completed : Nat
  total : Nat
  digest : Option String
deriving Repr, DecidableEq

/-- The map update of the callback, lines 598-604 of the app component:
`if ( digest ) { layers.set( digest, { completed, total } ); } else if
( total > 0 ) { layers.set( 'unknown', { completed, total } ); }`.
JS truthiness: an empty-string digest is falsy and falls to the `else if`. -/
def updateLayers (L : Layers) (e : PullEvent) : Layers :=
  match e.digest with
  | some d =>
      if d = "" then
        if e.total > 0 then layersSet L "unknown" ⟨e.completed, e.total⟩ else L
      else layersSet L d ⟨e.completed, e.total⟩
  | none =>
      if e.total > 0 then layersSet L "unknown" ⟨e.completed, e.total⟩ else L

/-- The key under which an event is stored by `updateLayers`, or `none` when
the event is dropped (no digest and zero total). -/
def eventKey (e : PullEvent) : Option String :=
  match e.digest with
  | some d =>
      if d = "" then (if e.total > 0 then some "unknown" else none)
      else some d
  | none => if e.total > 0 then some "unknown" else none

/-- JS `Math.round` of the non-negative ratio `num / den`, i.e.
`floor( num / den + 1 / 2 )`, computed exactly over `Nat`. -/
def jsRound (num den : Nat) : Nat :=
  (2 * num + den) / (2 * den)

/-- Helper: does `hay` start with `needle`? (char lists). -/
def listStartsWith : List Char → List Char → Bool
  | _, [] => true
  | [], _ :: _ => false
  | c :: cs, d :: ds => c = d && listStartsWith cs ds

/-- Helper: does `needle` occur contiguously inside `hay`? (char lists). -/
def hasSubList : List Char → List Char → Bool
  | [], needle => needle.isEmpty
  | hay@(_ :: t), needle => listStartsWith hay needle || hasSubList t needle

/-- JS `String.prototype.includes`. -/
def jsIncludes (s sub : String) : Bool :=
  hasSubList s.toList sub.toList

/-- The status test of the percent computation, line 618:
`status === 'success' || status.includes( 'verifying' ) ||
status.includes( 'writing' )`. -/
def isPostTransfer (status : String) : Bool :=
  status = "success" || jsIncludes status "verifying" || jsIncludes status "writing"

/-- The percent computed by the callback, lines 615-620:
`let percent = 0; if ( globalTotal > 0 ) { percent = Math.round(
( globalCompleted / globalTotal ) * 100 ); } else if ( status === 'success'
|| status.includes( 'verifying' ) || status.includes( 'writing' ) )
{ percent = 100; }`. -/
def percentOf (L : Layers) (status : String) : Nat :=
  if globalTotal L > 0 then jsRound (100 * globalCompleted L) (globalTotal L)
  else if isPostTransfer status then 100 else 0

/-- The percent reported for one event arriving at layer state `L`: the map is
updated first, then the percent is computed from the updated sums. -/
def eventPercent (L : Layers) (e : PullEvent) : Nat :=
  percentOf (updateLayers L e) e.status

/-- The successive percents reported by the callback for a sequence of events
starting from layer state `L`. -/
def percentsFrom (L : Layers) : List PullEvent → List Nat
  | [] => []
  | e :: es => eventPercent L e :: percentsFrom (updateLayers L e) es

/-- The successive percents of one pull attempt (the layers map starts
empty). -/
def attemptPercents (es : List PullEvent) : List Nat :=
  percentsFrom [] es

/-- The per-layer monotonicity hypothesis of the specification, checked along
a run: every event whose key is already present carries a `completed` count
at least the stored one.  Events revealing a new layer are allowed. -/
def layerMonotoneB (L : Layers) : List PullEvent → Bool
  | [] => true
  | e :: es =>
      (match eventKey e with
        | none => true
        | some k =>
            match lookupLayer L k with
            | none => true
            | some w => decide (w.completed ≤ e.completed)) &&
      layerMonotoneB (updateLayers L e) es

/-- A fixed-layer update: the event is stored under a key already present,
leaves that layer's `total` unchanged and does not decrease its
`completed`. -/
def fixedLayerEventB (L : Layers) (e : PullEvent) : Bool :=
  match eventKey e with
  | none => false
  | some k =>
      match lookupLayer L k with
      | none => false
      | some w => decide (w.total = e.total) && decide (w.completed ≤ e.completed)

/-- A run consisting only of fixed-layer updates. -/
def fixedRunB (L : Layers) : List PullEvent → Bool
  | [] => true
  | e :: es => fixedLayerEventB L e && fixedRunB (updateLayers L e) es

/-! ## Transport: stream decoding in OllamaService.pullModel

The reader loop of `pullModel` decodes each chunk with
`decoder.decode( value, { stream: true } )`, splits it on `'\n'`, filters
blank lines, and runs each remaining line through
`try { const json = JSON.parse( line ); if ( json.error ) throw new Error(
json.error ); if ( progressCallback ) progressCallback( json.status,
json.completed || 0, json.total || 0 ); } catch ( e ) { /* ignore */ }`.
There is no buffer carried from one chunk to the next: every chunk is split
in isolation.  Strings are embedded as `List Char`. -/

/-- A JSON scalar of the wire protocol (statuses, digests and error texts are
strings, byte counters are numbers). -/
inductive JsonValue where
  | str (s : String)
  | num (n : Nat)
deriving Repr, DecidableEq

/-- Body of a JSON string after the opening quote: the characters up to the
closing quote and the rest of the input.  The wire format's statuses, digests
and error texts contain no escape sequences; an escape (or a missing closing
quote) is a parse failure. -/
def parseStrBody : List Char → Option (List Char × List Char)
  | [] => none
  | c :: rest =>
      if c = '"' then some ([], rest)
      else if c = '\\' then none
      else match parseStrBody rest with
        | some (s, r) => some (c :: s, r)
        | none => none

/-- Greedy digit scan with an accumulator. -/
def parseDigits : List Char → Nat → Nat × List Char
  | [], acc => (acc, [])
  | c :: rest, acc =>
      if c.isDigit then parseDigits rest (acc * 10 + (c.toNat - '0'.toNat))
      else (acc, c :: rest)

/-- A decimal number (at least one digit). -/
def parseNatNum : List Char → Option (Nat × List Char)
  | [] => none
  | c :: rest =>
      if c.isDigit then some (parseDigits (c :: rest) 0) else none

/-- A JSON value: a quoted string or a number. -/
def parseValue : List Char → Option (JsonValue × List Char)
  | '"' :: rest =>
      match parseStrBody rest with
      | some (s, r) => some (.str (String.mk s), r)
      | none => none
  | cs =>
      match parseNatNum cs with
      | some (n, r) => some (.num n, r)
      | none => none

/-- The members of a JSON object after the opening brace, fuel-bounded:
`"key":value` pairs separated by commas, ended by the closing brace. -/
def parseMembers : Nat → List Char → Option (List (String × JsonValue) × List Char)
  | 0, _ => none
  | fuel + 1, cs =>
      match cs with
      | '"' :: rest =>
          match parseStrBody rest with
          | none => none
          | some (key, r1) =>
              match r1 with
              | ':' :: r2 =>
                  match parseValue r2 with
                  | none => none
                  | some (v, r3) =>
                      match r3 with
                      | ',' :: r4 =>
                          match parseMembers fuel r4 with
                          | some (ps, r5) => some ((String.mk key, v) :: ps, r5)
                          | none => none
                      | '\x7d' :: r4 => some ([(String.mk key, v)], r4)
                      | _ => none
              | _ => none
      | _ => none

/-- JSON.parse restricted to the wire protocol's records: a single flat,
compact object of string and number fields (this is the only shape the
provider emits; any other input — in particular the fragments produced by a
record split across a chunk boundary — is a parse failure, as it is for
`JSON.parse`). -/
def jsonParse (line : List Char) : Option (List (String × JsonValue)) :=
  match line with
  | '\x7b' :: rest =>
      match rest with
      | '\x7d' :: r => if r = [] then some [] else none
      | _ =>
          match parseMembers (rest.length + 1) rest with
          | some (ps, r) => if r = [] then some ps else none
          | none => none
  | _ => none

/-- Field access on a parsed record (the wire format has no duplicate
keys). -/
def getField (ps : List (String × JsonValue)) (k : String) : Option JsonValue :=
  match ps with
  | [] => none
  | (k2, v) :: rest => if k2 = k then some v else getField rest k

/-- A string field's value, if present with string type. -/
def getStr (ps : List (String × JsonValue)) (k : String) : Option String :=
  match getField ps k with
  | some (.str s) => some s
  | _ => none

/-- JS `json.completed || 0`: the numeric field, or 0 when absent (a present
0 also yields 0, as in JS). -/
def natOr0 (ps : List (String × JsonValue)) (k : String) : Nat :=
  match getField ps k with
  | some (.num n) => n
  | _ => 0

/-- JS truthiness of `json.error`: present, of string type and non-empty. -/
def errTruthy (ps : List (String × JsonValue)) : Bool :=
  match getStr ps "error" with
  | some s => s ≠ ""
  | none => false

/-- The payload handed to `progressCallback`:
`( json.status, json.completed || 0, json.total || 0 )`.  `json.status` is
`none` when the record has no status field (JS passes `undefined`
through). -/
structure CallbackPayload where
  status : Option String
  completed : Nat
  total : Nat
deriving Repr, DecidableEq

/-- The body of the per-line `try` block: `JSON.parse` (throws on a malformed
line), then `if ( json.error ) throw new Error( json.error )`, then the
callback invocation. -/
def lineTryBody (line : List Char) : Except String CallbackPayload :=
  match jsonParse line with
  | none => .error "SyntaxError"
  | some ps =>
      if errTruthy ps then .error ((getStr ps "error").getD "")
      else .ok ⟨getStr ps "status", natOr0 ps "completed", natOr0 ps "total"⟩

/-- One iteration of `for ( const line of lines )`: the `try` block above
wrapped in `catch ( e ) { /* Ignore parse errors for partial chunks */ }`.
The catch swallows both parse failures and the error-record throw, so in
either case nothing is delivered and iteration continues. -/
def lineStep (acc : List CallbackPayload) (line : List Char) : List CallbackPayload :=
  match lineTryBody line with
  | .ok p => acc ++ [p]
  | .error _ => acc

/-- `chunk.split( '\n' )`. -/
def splitNewlines : List Char → List (List Char)
  | [] => [[]]
  | c :: rest =>
      if c = '\n' then [] :: splitNewlines rest
      else match splitNewlines rest with
        | [] => [[c]]
        | l :: ls => (c :: l) :: ls

/-- JS whitespace for `String.prototype.trim`. -/
def isWSChar (c : Char) : Bool :=
  c = ' ' || c = '\t' || c = '\n' || c = '\r' || c = '\x0b' || c = '\x0c'

/-- `chunk.split( '\n' ).filter( line => line.trim() !== '' )`: a line
survives the filter exactly when it has a non-whitespace character. -/
def chunkLines (chunk : List Char) : List (List Char) :=
  (splitNewlines chunk).filter (fun l => !l.all isWSChar)

/-- The callback payloads delivered while reading one attempt's chunk
sequence: the reader loop processes each chunk's lines in order.  Each chunk
is split independently; no partial line is carried to the next read. -/
def attemptDelivered (chunks : List (List Char)) : List CallbackPayload :=
  chunks.foldl (fun acc chunk => (chunkLines chunk).foldl lineStep acc) []

/-- One line's delivered payload, if any: the record parses and its `error`
field is not truthy. -/
def lineDelivery (line : List Char) : Option CallbackPayload :=
  match lineTryBody line with
  | .ok p => some p
  | .error _ => none

/-- The percent formula exactly as the specification states it
(section 4.1): `percent = globalTotal > 0 ? min( 100, round( 100 *
globalCompleted / globalTotal ) ) : 0`.  Stated from the spec's words, to be
compared with `percentOf`, which is taken from the source. -/
def specPercent (L : Layers) : Nat :=
  if globalTotal L > 0 then min 100 (jsRound (100 * globalCompleted L) (globalTotal L))
  else 0

/-! ## AcquisitionController: the retry loop of OllamaService.pullModel -/

/-- `OllamaService.deleteModel`: issues the DELETE request and returns
`response.ok`; a thrown fetch error is caught and yields `false`, so the
method never throws.  The argument is the fetch outcome: `some ok` for a
response, `none` for a network error. -/
def deleteModel (fetchResult : Option Bool) : Bool :=
  match fetchResult with
  | some ok => ok
  | none => false

/-- MAX_RETRIES of `pullModel`. -/
def MAX_RETRIES : Nat := 3

/-- The observable outcome of one `pullModel` call: how many attempts ran,
how many retry notifications the progress callback received, the results of
the cleanup `deleteModel` calls (in order), the total backoff waited in
milliseconds, and the overall result. -/
structure PullTrace where
  attemptsMade : Nat
  retryNotices : Nat
  cleanups : List Bool
  backoffMs : Nat
  result : Except String Unit
deriving Repr, DecidableEq

/-- The `for ( let attempt = 1; attempt <= MAX_RETRIES; attempt++ )` loop of
`pullModel`.  `attemptOutcome n` abstracts the whole `try` block of attempt
`n` (the streaming request and its reader loop): `ok` when the stream
completes, `error msg` when anything in the attempt throws (transport
failure, stall).  `deleteOutcome n` is the fetch outcome of the cleanup
delete issued after a failed attempt `n`.  On a non-final failure the loop
notifies the callback, performs the best-effort cleanup, waits
`Math.pow( 2, attempt ) * 1000` ms and retries; on a final failure it throws
`Failed to pull model after 3 attempts: ...` carrying the last reason.  The
fuel argument starts at `MAX_RETRIES` and bounds the remaining iterations. -/
def pullLoop (attemptOutcome : Nat → Except String Unit)
    (deleteOutcome : Nat → Option Bool) :
    Nat → Nat → Nat → List Bool → Nat → PullTrace
  | 0, attempt, notices, cleanups, backoff =>
      ⟨attempt, notices, cleanups, backoff, .error "out of fuel"⟩
  | fuel + 1, attempt, notices, cleanups, backoff =>
      match attemptOutcome attempt with
      | .ok _ => ⟨attempt, notices, cleanups, backoff, .ok ()⟩
      | .error msg =>
          if attempt = MAX_RETRIES then
            ⟨attempt, notices, cleanups, backoff,
              .error ("Failed to pull model after " ++ toString MAX_RETRIES ++
                " attempts: " ++ msg)⟩
          else
            pullLoop attemptOutcome deleteOutcome fuel (attempt + 1)
              (notices + 1)
              (cleanups ++ [deleteModel (deleteOutcome attempt)])
              (backoff + 2 ^ attempt * 1000)

/-- One `pullModel` call: the loop starting at attempt 1 with nothing
accumulated. -/
def pullModelRun (attemptOutcome : Nat → Except String Unit)
    (deleteOutcome : Nat → Option Bool) : PullTrace :=
  pullLoop attemptOutcome deleteOutcome MAX_RETRIES 1 0 [] 0

/-! ## Cancellation (frontend OllamaService.pullModel with AbortSignal) -/

/-- The outcome of one attempt of the cancellable pull, distinguishing a
user-initiated abort from a transport failure. -/
inductive AttemptResult where
  | ok
  | cancelled
  | failed (msg : String)
deriving Repr, DecidableEq

/-- Modelled from the spec: the frontend web app's
`ollama.service.ts` — the `pullModel` overload taking an `AbortSignal`,
called by `pullOllamaModel` — is not among the available sources (only its
callers are; the cv-parser copy embedded above predates cancellation
support).  Per the specification, when the cancellation token is signalled
the attempt terminates immediately with `Cancelled` (the caller observes the
message `Download cancelled by user`), with no retry and no cleanup; a
transport failure or stall retries exactly as in `pullLoop`. -/
def pullLoopCancel (attemptRes : Nat → AttemptResult)
    (deleteOutcome : Nat → Option Bool) :
    Nat → Nat → Nat → List Bool → Nat → PullTrace
  | 0, attempt, notices, cleanups, backoff =>
      ⟨attempt, notices, cleanups, backoff, .error "out of fuel"⟩
  | fuel + 1, attempt, notices, cleanups, backoff =>
      match attemptRes attempt with
      | .ok => ⟨attempt, notices, cleanups, backoff, .ok ()⟩
      | .cancelled =>
          ⟨attempt, notices, cleanups, backoff, .error "Download cancelled by user"⟩
      | .failed msg =>
          if attempt = MAX_RETRIES then
            ⟨attempt, notices, cleanups, backoff,
              .error ("Failed to pull model after " ++ toString MAX_RETRIES ++
                " attempts: " ++ msg)⟩
          else
            pullLoopCancel attemptRes deleteOutcome fuel (attempt + 1)
              (notices + 1)
              (cleanups ++ [deleteModel (deleteOutcome attempt)])
              (backoff + 2 ^ attempt * 1000)

/-- Modelled from the spec: one cancellable `pullModel` call. -/
def pullModelCancelRun (attemptRes : Nat → AttemptResult)
    (deleteOutcome : Nat → Option Bool) : PullTrace :=
  pullLoopCancel attemptRes deleteOutcome MAX_RETRIES 1 0 [] 0

/-! ## EngineLifecycleManager: LocalExtractionService.initialize -/

/-- The mutable fields of `LocalExtractionService` touched by `initialize`:
the engine handle (carrying the model it is bound to, `none` when no engine
exists), `currentModelId`, `isLoading` and the last progress text. -/
structure EngineState where
  engine : Option String
  currentModelId : Option String
  isLoading : Bool
  progress : String
deriving Repr, DecidableEq

/-- The environment of one `initialize` call: the selected provider, the
outcomes of `engine.reload( modelId )`, `CreateMLCEngine( modelId, ... )` and
`engine.unload()`, and the progress texts each engine operation feeds to the
init-progress callback while it runs. -/
structure EngineEnv where
  provider : String
  reloadRes : Except String Unit
  createRes : Except String Unit
  unloadRes : Except String Unit
  reloadTexts : List String
  createTexts : List String
deriving Repr, DecidableEq

/-- The observable effects of one `initialize` call: how many times
`engine.reload`, `CreateMLCEngine` and `engine.unload` were invoked, the
`setTimeout` delays awaited (ms), and how often the init-progress callback
fired. -/
structure InitTrace where
  reloadCalls : Nat
  createCalls : Nat
  unloadCalls : Nat
  delaysMs : List Nat
  progressCalls : Nat
deriving Repr, DecidableEq

/-- Effect of the init-progress callback firing for each text in order:
`this.progress = text` (the user callback is invoked with the same texts;
their number is recorded in the trace). -/
def applyTexts (st : EngineState) (texts : List String) : EngineState :=
  match texts.getLast? with
  | some t => { st with progress := t }
  | none => st

/-- The fallback creation path of `initialize` (lines 62-68 plus the
surrounding catch/finally), entered with `this.engine === null`: wait 500 ms,
call `CreateMLCEngine`; on success store the handle; on failure the outer
catch finds `this.engine` null (no unload), clears `currentModelId` and
rethrows; `finally` clears `isLoading` either way. -/
def createPath (env : EngineEnv) (st : EngineState) (modelId : String)
    (tr : InitTrace) : EngineState × InitTrace × Except String Unit :=
  let st1 := applyTexts st env.createTexts
  let tr1 := { tr with
    createCalls := tr.createCalls + 1
    delaysMs := tr.delaysMs ++ [500]
    progressCalls := tr.progressCalls + env.createTexts.length }
  match env.createRes with
  | .ok _ =>
      ({ st1 with engine := some modelId, isLoading := false }, tr1, .ok ())
  | .error ce =>
      ({ st1 with currentModelId := none, isLoading := false }, tr1, .error ce)

/-- `LocalExtractionService.initialize( modelId, progressCallback? )`.
If the selected provider is not `'browser'` it returns at once, before
touching any state.  Otherwise it sets `isLoading` and `currentModelId`,
then: with an existing engine it attempts an in-place
`engine.reload( modelId )` (returning on success); on reload failure it
unloads the old handle best-effort (the unload outcome is swallowed), nulls
the handle and falls through to the creation path; with no engine it goes to
the creation path directly. -/
def initEngine (env : EngineEnv) (st : EngineState) (modelId : String) :
    EngineState × InitTrace × Except String Unit :=
  if env.provider ≠ "browser" then (st, ⟨0, 0, 0, [], 0⟩, .ok ())
  else
    let st1 := { st with isLoading := true, currentModelId := some modelId }
    match st1.engine with
    | some _ =>
        let st2 := applyTexts st1 env.reloadTexts
        let tr2 : InitTrace := ⟨1, 0, 0, [], env.reloadTexts.length⟩
        match env.reloadRes with
        | .ok _ =>
            ({ st2 with engine := some modelId, isLoading := false }, tr2, .ok ())
        | .error _ =>
            createPath env { st2 with engine := none } modelId
              { tr2 with unloadCalls := tr2.unloadCalls + 1 }
    | none => createPath env st1 modelId ⟨0, 0, 0, [], 0⟩

/-! ## Helper lemmas -/

theorem globalCompleted_cons (k : String) (w : LayerProgress) (L : Layers) :
    globalCompleted ((k, w) :: L) = w.completed + globalCompleted L := by
  simp [globalCompleted]

theorem globalTotal_cons (k : String) (w : LayerProgress) (L : Layers) :
    globalTotal ((k, w) :: L) = w.total + globalTotal L := by
  simp [globalTotal]

theorem globalCompleted_layersSet (L : Layers) (k : String) (w v : LayerProgress)
    (h : lookupLayer L k = some w) :
    globalCompleted (layersSet L k v) + w.completed =
      globalCompleted L + v.completed := by
  induction L with
  | nil => simp [lookupLayer] at h
  | cons p rest ih =>
      obtain ⟨k2, w2⟩ := p
      by_cases hk : k2 = k
      · subst hk
        simp [lookupLayer] at h
        subst h
        simp [layersSet, globalCompleted_cons]
        omega
      · simp [lookupLayer, hk] at h
        simp [layersSet, hk, globalCompleted_cons]
        have := ih h
        omega

theorem globalTotal_layersSet (L : Layers) (k : String) (w v : LayerProgress)
    (h : lookupLayer L k = some w) :
    globalTotal (layersSet L k v) + w.total = globalTotal L + v.total := by
  induction L with
  | nil => simp [lookupLayer] at h
  | cons p rest ih =>
      obtain ⟨k2, w2⟩ := p
      by_cases hk : k2 = k
      · subst hk
        simp [lookupLayer] at h
        subst h
        simp [layersSet, globalTotal_cons]
        omega
      · simp [lookupLayer, hk] at h
        simp [layersSet, hk, globalTotal_cons]
        have := ih h
        omega

theorem updateLayers_eq_key (L : Layers) (e : PullEvent) :
    updateLayers L e =
      match eventKey e with
      | some k => layersSet L k ⟨e.completed, e.total⟩
      | none => L := by
  unfold updateLayers eventKey
  cases e.digest with
  | none => by_cases h : e.total > 0 <;> simp [h]
  | some d =>
      by_cases hd : d = "" <;> by_cases h : e.total > 0 <;> simp [hd, h]

theorem jsRound_mono (a b d : Nat) (h : a ≤ b) : jsRound a d ≤ jsRound b d := by
  unfold jsRound
  exact Nat.div_le_div_right (by omega)

theorem jsRound_le_100 (num den : Nat) (hden : 0 < den) (h : num ≤ 100 * den) :
    jsRound num den ≤ 100 := by
  have h1 : jsRound num den ≤ (201 * den) / (2 * den) := by
    unfold jsRound
    exact Nat.div_le_div_right (by omega)
  have h2 : (201 * den) / (2 * den) = 100 := by
    rw [show 201 * den = den * 201 by ring, show 2 * den = den * 2 by ring,
      Nat.mul_div_mul_left _ _ hden]
  omega

/-- A fixed-layer update leaves the global total unchanged, does not decrease
the global completed count, and does not decrease the reported percent
(whatever status the previous event carried), provided bytes have
accumulated. -/
theorem percent_step (L : Layers) (e : PullEvent)
    (hfix : fixedLayerEventB L e = true) (hgt : 0 < globalTotal L) :
    globalTotal (updateLayers L e) = globalTotal L ∧
    ∀ s : String, percentOf L s ≤ eventPercent L e := by
  unfold fixedLayerEventB at hfix
  cases hk : eventKey e with
  | none => simp only [hk] at hfix; exact absurd hfix (by simp)
  | some k =>
      simp only [hk] at hfix
      cases hw : lookupLayer L k with
      | none => simp only [hw] at hfix; exact absurd hfix (by simp)
      | some w =>
          simp only [hw, Bool.and_eq_true, decide_eq_true_eq] at hfix
          obtain ⟨htot, hcomp⟩ := hfix
          have hupd : updateLayers L e = layersSet L k ⟨e.completed, e.total⟩ := by
            rw [updateLayers_eq_key, hk]
          have hT := globalTotal_layersSet L k w ⟨e.completed, e.total⟩ hw
          have hC := globalCompleted_layersSet L k w ⟨e.completed, e.total⟩ hw
          simp only at hT hC
          have hgt' : globalTotal (updateLayers L e) = globalTotal L := by
            rw [hupd]; omega
          refine ⟨hgt', fun s => ?_⟩
          have hgc : globalCompleted L ≤ globalCompleted (updateLayers L e) := by
            rw [hupd]; omega
          unfold eventPercent percentOf
          rw [hgt']
          simp only [hgt, if_pos]
          exact jsRound_mono _ _ _ (by omega)

/-! ## Claim theorems: progress aggregation -/

/-- C1: the claim as stated is false of the code.  The concrete event
sequence (L1, 50, 100) then (L2, 0, 100) has monotonically non-decreasing
per-layer completed counts, yet the successive percents are 50 then 25 — the
aggregate percent decreases when a new layer is first reported. -/
theorem C1_counterexample :
    layerMonotoneB []
      [⟨"pulling", 50, 100, some "L1"⟩, ⟨"pulling", 0, 100, some "L2"⟩] = true ∧
    attemptPercents
      [⟨"pulling", 50, 100, some "L1"⟩, ⟨"pulling", 0, 100, some "L2"⟩] = [50, 25] ∧
    ¬ List.Chain' (· ≤ ·)
      (attemptPercents
        [⟨"pulling", 50, 100, some "L1"⟩, ⟨"pulling", 0, 100, some "L2"⟩]) := by
  refine ⟨by decide, by decide, ?_⟩
  intro h
  rw [show attemptPercents
      [⟨"pulling", 50, 100, some "L1"⟩, ⟨"pulling", 0, 100, some "L2"⟩] =
      [50, 25] by decide, List.chain'_cons] at h
  omega

/-- C1 (amended): within one attempt, the aggregate percent is non-decreasing
across successive progress events provided every event updates a layer that
is already known, leaves that layer's total unchanged and does not decrease
its completed count, and bytes have accumulated (positive global total).  It
can decrease when a new layer is first reported, as the 50-then-25 example
shows. -/
theorem C1_percent_nondecreasing_fixed_layers (L : Layers) (es : List PullEvent)
    (hrun : fixedRunB L es = true) (hgt : 0 < globalTotal L) :
    List.Chain' (· ≤ ·) (percentsFrom L es) := by
  induction es generalizing L with
  | nil => simp [percentsFrom]
  | cons e es ih =>
      unfold fixedRunB at hrun
      simp only [Bool.and_eq_true] at hrun
      obtain ⟨hfix, hrest⟩ := hrun
      have hstep := percent_step L e hfix hgt
      have hgt' : 0 < globalTotal (updateLayers L e) := by
        rw [hstep.1]; exact hgt
      have hchain := ih (updateLayers L e) hrest hgt'
      rw [show percentsFrom L (e :: es) =
        eventPercent L e :: percentsFrom (updateLayers L e) es from rfl,
        List.chain'_cons']
      refine ⟨?_, hchain⟩
      intro y hy
      cases es with
      | nil => simp [percentsFrom] at hy
      | cons e2 es2 =>
          simp only [percentsFrom, List.head?_cons, Option.mem_def,
            Option.some.injEq] at hy
          subst hy
          unfold fixedRunB at hrest
          simp only [Bool.and_eq_true] at hrest
          have hstep2 := percent_step (updateLayers L e) e2 hrest.1 hgt'
          exact hstep2.2 e.status

/-- C1 witness: a concrete fixed-layer run with non-decreasing percents. -/
theorem C1_witness :
    List.Chain' (· ≤ ·)
      (percentsFrom [("L1", ⟨0, 100⟩)]
        [⟨"pulling", 40, 100, some "L1"⟩, ⟨"pulling", 90, 100, some "L1"⟩]) :=
  C1_percent_nondecreasing_fixed_layers _ _ (by decide) (by decide)

/-- C3: the claim as stated is false of the code.  A lone verifying event
with no byte fields yields percent 100 where the claimed formula
(`specPercent`, zero when the global total is zero) yields 0; and a layer
reporting more completed than total bytes yields percent 150 where the
claimed min-clamped formula yields 100. -/
theorem C3_counterexample :
    eventPercent [] ⟨"verifying sha256:abc", 0, 0, none⟩ = 100 ∧
    specPercent (updateLayers [] ⟨"verifying sha256:abc", 0, 0, none⟩) = 0 ∧
    eventPercent [] ⟨"pulling", 150, 100, some "L1"⟩ = 150 ∧
    specPercent (updateLayers [] ⟨"pulling", 150, 100, some "L1"⟩) = 100 := by
  decide

/-- C3 (amended): when the global total is positive and the global completed
count does not exceed it, the percent equals the claimed
min(100, round(100 * completed / total)) — the min clamp is vacuous there;
when the global total is zero the percent is 100 for a success, verifying or
writing status and 0 otherwise; and the example sequence (L1,50,100),
(L2,0,100), (L1,100,100), (L2,100,100) yields the successive percents
50, 25, 50, 100 — in particular 50 after the first event, 25 after the
second and 100 at the end, as the specification's example states. -/
theorem C3_percent_formula :
    (∀ (L : Layers) (s : String), 0 < globalTotal L →
      globalCompleted L ≤ globalTotal L → percentOf L s = specPercent L) ∧
    (∀ (L : Layers) (s : String), globalTotal L = 0 →
      percentOf L s = if isPostTransfer s then 100 else 0) ∧
    attemptPercents
      [⟨"pulling", 50, 100, some "L1"⟩, ⟨"pulling", 0, 100, some "L2"⟩,
        ⟨"pulling", 100, 100, some "L1"⟩, ⟨"pulling", 100, 100, some "L2"⟩] =
      [50, 25, 50, 100] := by
  refine ⟨fun L s hgt hle => ?_, fun L s h0 => ?_, by decide⟩
  · unfold percentOf specPercent
    simp only [hgt, if_pos]
    rw [min_eq_right]
    exact jsRound_le_100 _ _ hgt (by omega)
  · simp [percentOf, h0]

/-- C3 witness: a concrete state with accumulated bytes on which the code's
percent and the claimed formula agree. -/
theorem C3_witness :
    percentOf [("L1", ⟨50, 100⟩)] "pulling" = specPercent [("L1", ⟨50, 100⟩)] :=
  C3_percent_formula.1 [("L1", ⟨50, 100⟩)] "pulling" (by decide) (by decide)

/-- C4: the claim as stated is false of the code.  After a layer has reported
(50, 100), a verifying event with no byte fields yields percent 50, not the
claimed 100: the pin to 100 is skipped whenever byte totals have
accumulated. -/
theorem C4_counterexample :
    isPostTransfer "verifying sha256:abc" = true ∧
    attemptPercents
      [⟨"pulling", 50, 100, some "L1"⟩, ⟨"verifying sha256:abc", 0, 0, none⟩] =
      [50, 50] := by
  decide

/-- C4 (amended): a post-transfer status (success, or one containing
verifying or writing) pins the percent to 100 only when no byte totals have
accumulated: if the global total after the event is zero, the reported
percent is 100 regardless of prior state. -/
theorem C4_post_transfer_pin (L : Layers) (e : PullEvent)
    (hs : isPostTransfer e.status = true)
    (h0 : globalTotal (updateLayers L e) = 0) :
    eventPercent L e = 100 := by
  simp [eventPercent, percentOf, h0, hs]

/-- C4 witness: a success event arriving with the layers map still empty is
reported as 100. -/
theorem C4_witness : eventPercent [] ⟨"success", 0, 0, none⟩ = 100 :=
  C4_post_transfer_pin [] ⟨"success", 0, 0, none⟩ (by decide) (by decide)

/-! ## Claim theorems: stream decoding -/

theorem foldl_lineStep (lines : List (List Char)) (acc : List CallbackPayload) :
    lines.foldl lineStep acc = acc ++ lines.filterMap lineDelivery := by
  induction lines generalizing acc with
  | nil => simp
  | cons l ls ih =>
      rw [List.foldl_cons, ih, List.filterMap_cons]
      unfold lineStep lineDelivery
      cases lineTryBody l with
      | ok p => simp
      | error msg => simp

/-- C5: the code contradicts the claim.  The `if ( json.error ) throw` of the
reader loop sits inside the same `try` whose `catch` ignores parse errors, so
the thrown error is swallowed; an error record neither ends the attempt's
stream-reading loop nor stops delivery: here the chunk carries an error
record followed by a progress record, the error record does throw
(`lineTryBody` is an error), yet the following record is still delivered to
the progress callback. -/
theorem C5_error_record_swallowed :
    lineTryBody "\x7b\"error\":\"boom\"\x7d".toList = .error "boom" ∧
    attemptDelivered
      ["\x7b\"error\":\"boom\"\x7d\n\x7b\"status\":\"downloading\",\"completed\":5,\"total\":10\x7d\n".toList] =
      [⟨some "downloading", 5, 10⟩] := by
  constructor
  · decide
  · decide

/-- C7: the claim as stated is false of the code.  A record whose text is
split across two consecutive chunks is dropped: each fragment fails to parse
and is silently skipped, so nothing is delivered — whereas the same record
arriving inside a single chunk is delivered. -/
theorem C7_counterexample :
    attemptDelivered
      ["\x7b\"status\":\"pulling\",\"comp".toList, "leted\":7,\"total\":20\x7d\n".toList] = [] ∧
    attemptDelivered
      ["\x7b\"status\":\"pulling\",\"completed\":7,\"total\":20\x7d\n".toList] =
      [⟨some "pulling", 7, 20⟩] := by
  constructor
  · decide
  · decide

/-- C7 (amended): the stream decoder splits each chunk on newlines in
isolation — no partial line is buffered across reads — and the payloads
delivered over an attempt are exactly those of the per-chunk lines that parse
as records without a truthy error field; malformed lines (in particular the
fragments of a record split across a chunk boundary) are silently skipped,
so such a split record is dropped rather than delivered. -/
theorem C7_per_chunk_decoding (chunks : List (List Char)) :
    attemptDelivered chunks =
      (chunks.map chunkLines).flatten.filterMap lineDelivery := by
  unfold attemptDelivered
  rw [show (chunks.map chunkLines).flatten.filterMap lineDelivery =
      [] ++ (chunks.map chunkLines).flatten.filterMap lineDelivery by simp]
  generalize ([] : List CallbackPayload) = acc
  induction chunks generalizing acc with
  | nil => simp
  | cons c cs ih =>
      rw [List.foldl_cons, foldl_lineStep, ih]
      simp [List.filterMap_append]

/-! ## Claim theorems: retry loop and cancellation -/

/-- C2: pullModel makes at most MAX_RETRIES = 3 attempts; each failed
non-final attempt is followed by one cleanup delete (whose own outcome,
abstracted by `dl`, never influences the run) and a backoff of
2^attempt seconds, so two failures followed by a success yield overall
success with exactly two cleanups and 2000 + 4000 = 6000 ms of backoff,
and three failures yield the exhausted-retries error carrying the last
failure reason. -/
theorem C2_pullModel_retry_policy :
    (∀ (ao : Nat → Except String Unit) (dl : Nat → Option Bool),
      (pullModelRun ao dl).attemptsMade ≤ 3) ∧
    (∀ (ao : Nat → Except String Unit) (dl : Nat → Option Bool) (e1 e2 : String),
      ao 1 = .error e1 → ao 2 = .error e2 → ao 3 = .ok () →
      pullModelRun ao dl =
        ⟨3, 2, [deleteModel (dl 1), deleteModel (dl 2)], 6000, .ok ()⟩) ∧
    (∀ (ao : Nat → Except String Unit) (dl : Nat → Option Bool) (e1 e2 e3 : String),
      ao 1 = .error e1 → ao 2 = .error e2 → ao 3 = .error e3 →
      pullModelRun ao dl =
        ⟨3, 2, [deleteModel (dl 1), deleteModel (dl 2)], 6000,
          .error ("Failed to pull model after " ++ toString MAX_RETRIES ++
            " attempts: " ++ e3)⟩) := by
  refine ⟨fun ao dl => ?_, fun ao dl e1 e2 h1 h2 h3 => ?_,
    fun ao dl e1 e2 e3 h1 h2 h3 => ?_⟩
  · unfold pullModelRun MAX_RETRIES
    cases h1 : ao 1 with
    | ok v => simp [pullLoop, h1]
    | error m1 =>
        cases h2 : ao 2 with
        | ok v => simp [pullLoop, h1, h2, MAX_RETRIES]
        | error m2 =>
            cases h3 : ao 3 with
            | ok v => simp [pullLoop, h1, h2, h3, MAX_RETRIES]
            | error m3 => simp [pullLoop, h1, h2, h3, MAX_RETRIES]
  · unfold pullModelRun MAX_RETRIES
    simp [pullLoop, h1, h2, h3, MAX_RETRIES]
  · unfold pullModelRun MAX_RETRIES
    simp [pullLoop, h1, h2, h3, MAX_RETRIES]

/-- C2 witness: the two-failures-then-success scenario, the all-failures
scenario and the attempt bound at concrete inputs. -/
theorem C2_witness :
    pullModelRun (fun n => if n = 3 then .ok () else .error "network error")
      (fun _ => some true) = ⟨3, 2, [true, true], 6000, .ok ()⟩ ∧
    pullModelRun (fun _ => .error "stalled") (fun _ => none) =
      ⟨3, 2, [false, false], 6000,
        .error ("Failed to pull model after " ++ toString MAX_RETRIES ++
          " attempts: " ++ "stalled")⟩ ∧
    (pullModelRun (fun _ => .ok ()) (fun _ => none)).attemptsMade ≤ 3 := by
  refine ⟨?_, ?_, C2_pullModel_retry_policy.1 _ _⟩
  · have h := C2_pullModel_retry_policy.2.1
      (fun n => if n = 3 then .ok () else .error "network error")
      (fun _ => some true) "network error" "network error" rfl rfl rfl
    simpa [deleteModel] using h
  · have h := C2_pullModel_retry_policy.2.2
      (fun _ => .error "stalled") (fun _ => none)
      "stalled" "stalled" "stalled" rfl rfl rfl
    simpa [deleteModel] using h

/-- C6: cancellation mid-stream ends the acquisition at once with the
cancelled outcome — one attempt made, zero retries, no retry notice, no
cleanup delete issued and no backoff waited. -/
theorem C6_cancel_immediate (ar : Nat → AttemptResult) (dl : Nat → Option Bool)
    (h : ar 1 = .cancelled) :
    pullModelCancelRun ar dl =
      ⟨1, 0, [], 0, .error "Download cancelled by user"⟩ := by
  simp [pullModelCancelRun, pullLoopCancel, MAX_RETRIES, h]

/-- C6 witness: a pull whose first attempt is aborted by the user. -/
theorem C6_witness :
    pullModelCancelRun (fun _ => .cancelled) (fun _ => none) =
      ⟨1, 0, [], 0, .error "Download cancelled by user"⟩ :=
  C6_cancel_immediate (fun _ => .cancelled) (fun _ => none) rfl

/-! ## Claim theorems: engine lifecycle -/

theorem applyTexts_engine (st : EngineState) (texts : List String) :
    (applyTexts st texts).engine = st.engine := by
  unfold applyTexts; cases texts.getLast? <;> rfl

theorem applyTexts_currentModelId (st : EngineState) (texts : List String) :
    (applyTexts st texts).currentModelId = st.currentModelId := by
  unfold applyTexts; cases texts.getLast? <;> rfl

theorem applyTexts_isLoading (st : EngineState) (texts : List String) :
    (applyTexts st texts).isLoading = st.isLoading := by
  unfold applyTexts; cases texts.getLast? <;> rfl

/-- C8: with an engine loaded and the in-place reload failing, initialize
performs exactly one best-effort unload (its outcome, a field of the
environment, never influences the run), waits the single 500 ms settle
delay, performs exactly one fresh creation, and surfaces the creation
outcome — never the reload failure: on creation success the call returns
normally with the engine bound to the requested model. -/
theorem C8_reload_failure_fallback (env : EngineEnv) (st : EngineState)
    (modelId a re : String)
    (hp : env.provider = "browser") (he : st.engine = some a)
    (hr : env.reloadRes = .error re) :
    (initEngine env st modelId).2.1.reloadCalls = 1 ∧
    (initEngine env st modelId).2.1.unloadCalls = 1 ∧
    (initEngine env st modelId).2.1.delaysMs = [500] ∧
    (initEngine env st modelId).2.1.createCalls = 1 ∧
    (initEngine env st modelId).2.2 = env.createRes ∧
    (env.createRes = .ok () → (initEngine env st modelId).1.engine = some modelId) := by
  cases hc : env.createRes with
  | ok u =>
      cases u
      simp [initEngine, createPath, hp, he, hr, hc]
  | error ce =>
      simp [initEngine, createPath, hp, he, hr, hc]

/-- C8 witness: loaded with model A, reload to B throws, creation of B
succeeds. -/
theorem C8_witness :
    (initEngine ⟨"browser", .error "reload failed", .ok (), .ok (), [], []⟩
      ⟨some "A", some "A", false, ""⟩ "B").2.1.reloadCalls = 1 ∧
    (initEngine ⟨"browser", .error "reload failed", .ok (), .ok (), [], []⟩
      ⟨some "A", some "A", false, ""⟩ "B").2.1.unloadCalls = 1 ∧
    (initEngine ⟨"browser", .error "reload failed", .ok (), .ok (), [], []⟩
      ⟨some "A", some "A", false, ""⟩ "B").2.1.delaysMs = [500] ∧
    (initEngine ⟨"browser", .error "reload failed", .ok (), .ok (), [], []⟩
      ⟨some "A", some "A", false, ""⟩ "B").2.1.createCalls = 1 ∧
    (initEngine ⟨"browser", .error "reload failed", .ok (), .ok (), [], []⟩
      ⟨some "A", some "A", false, ""⟩ "B").2.2 =
      (⟨"browser", .error "reload failed", .ok (), .ok (), [], []⟩ : EngineEnv).createRes ∧
    ((⟨"browser", .error "reload failed", .ok (), .ok (), [], []⟩ : EngineEnv).createRes = .ok () →
      (initEngine ⟨"browser", .error "reload failed", .ok (), .ok (), [], []⟩
        ⟨some "A", some "A", false, ""⟩ "B").1.engine = some "B") :=
  C8_reload_failure_fallback
    ⟨"browser", .error "reload failed", .ok (), .ok (), [], []⟩
    ⟨some "A", some "A", false, ""⟩ "B" "A" "reload failed" rfl rfl rfl

/-- C9: the claim as stated is false of the code.  With the engine already
loaded and bound to model A, a further initialize with the same model A is
not a no-op: the code never compares the requested model with the current
one, so it performs one in-place reload call instead of zero. -/
theorem C9_counterexample :
    (initEngine ⟨"browser", .ok (), .ok (), .ok (), [], []⟩
      ⟨some "A", some "A", false, ""⟩ "A").2.1.reloadCalls = 1 ∧
    ¬ (initEngine ⟨"browser", .ok (), .ok (), .ok (), [], []⟩
      ⟨some "A", some "A", false, ""⟩ "A").2.1.reloadCalls = 0 := by
  decide

/-- C9 (amended): calling initialize with the modelId the engine is already
bound to is not a no-op: it performs exactly one in-place reload call (and,
when the reload succeeds, no unload, no creation and no settle delay),
returning normally with the engine still bound to that model. -/
theorem C9_same_model_reload (env : EngineEnv) (st : EngineState) (m : String)
    (hp : env.provider = "browser") (he : st.engine = some m)
    (_hcur : st.currentModelId = some m) (hr : env.reloadRes = .ok ()) :
    (initEngine env st m).2.1 = ⟨1, 0, 0, [], env.reloadTexts.length⟩ ∧
    (initEngine env st m).2.2 = .ok () ∧
    (initEngine env st m).1.engine = some m ∧
    (initEngine env st m).1.currentModelId = some m := by
  simp [initEngine, hp, he, hr, applyTexts_currentModelId]

/-- C9 witness: re-activating the already-active model A performs exactly
one reload. -/
theorem C9_witness :
    (initEngine ⟨"browser", .ok (), .ok (), .ok (), [], []⟩
      ⟨some "A", some "A", false, ""⟩ "A").2.1 = ⟨1, 0, 0, [], 0⟩ ∧
    (initEngine ⟨"browser", .ok (), .ok (), .ok (), [], []⟩
      ⟨some "A", some "A", false, ""⟩ "A").2.2 = .ok () ∧
    (initEngine ⟨"browser", .ok (), .ok (), .ok (), [], []⟩
      ⟨some "A", some "A", false, ""⟩ "A").1.engine = some "A" ∧
    (initEngine ⟨"browser", .ok (), .ok (), .ok (), [], []⟩
      ⟨some "A", some "A", false, ""⟩ "A").1.currentModelId = some "A" := by
  simpa using C9_same_model_reload
    ⟨"browser", .ok (), .ok (), .ok (), [], []⟩
    ⟨some "A", some "A", false, ""⟩ "A" rfl rfl rfl rfl

/-- C10: with any provider other than browser selected, initialize returns
at once with the state untouched, no reload, creation, unload or delay, and
no progress-callback invocation. -/
theorem C10_non_browser_untouched (env : EngineEnv) (st : EngineState)
    (m : String) (hp : env.provider ≠ "browser") :
    initEngine env st m = (st, ⟨0, 0, 0, [], 0⟩, .ok ()) := by
  simp [initEngine, hp]

/-- C10 witness: the ollama provider skips engine initialization
entirely. -/
theorem C10_witness :
    initEngine ⟨"ollama", .ok (), .ok (), .ok (), [], []⟩
      ⟨some "A", some "B", false, "p"⟩ "C" =
      (⟨some "A", some "B", false, "p"⟩, ⟨0, 0, 0, [], 0⟩, .ok ()) :=
  C10_non_browser_untouched ⟨"ollama", .ok (), .ok (), .ok (), [], []⟩
    ⟨some "A", some "B", false, "p"⟩ "C" (by decide)

end CvParser
